import Mathlib

/-!
Shallow embedding of the notebook-execution pipeline of
jupyter_sphinx/execute.py, together with theorems settling the claims
about it.  Each definition is translated from the named place in the
source; definitions marked "Modelled from the spec" embed behaviour the
source delegates to external collaborators.
-/

set_option autoImplicit false

/-- Mime-type constant, execute.py line 41. -/
def WIDGET_VIEW_MIMETYPE : String := "application/vnd.jupyter.widget-view+json"

/-- Mime-type constant, execute.py line 42. -/
def WIDGET_STATE_MIMETYPE : String := "application/vnd.jupyter.widget-state+json"

/-- Document nodes as seen by the ExecuteJupyterCells transform:
JupyterKernelNode markers (kernel_name, kernel_id, both stored stripped),
JupyterCellNode code cells (astext of the contained literal_block), and
any other docutils node. -/
inductive DocNode where
  | kernel (kernel_name kernel_id : String)
  | cell (source : String)
  | other
deriving DecidableEq

def isJupyterKernelNode : DocNode → Bool
  | .kernel _ _ => true
  | _ => false

def isJupyterCellNode : DocNode → Bool
  | .cell _ => true
  | _ => false

def isJupyterNode (n : DocNode) : Bool :=
  isJupyterKernelNode n || isJupyterCellNode n

/-- doctree.traverse with the isinstance test of line 225: the document-order
subsequence of kernel and cell nodes. -/
def traverseJupyter (doc : List DocNode) : List DocNode :=
  doc.filter isJupyterNode

/-- doctree.traverse(JupyterCellNode) nonemptiness test of line 215. -/
def hasCellNode (doc : List DocNode) : Bool :=
  doc.any isJupyterCellNode

/-- split_on, execute.py lines 298 to 311.  groupby keyed on a counter that
is bumped at every element satisfying the predicate: a new group starts
exactly at each such element, and a leading run of non-matching elements
forms a group of its own. -/
def split_on {α : Type} (p : α → Bool) : List α → List (List α)
  | [] => []
  | x :: xs =>
    match split_on p xs with
    | [] => [[x]]
    | [] :: gs => [x] :: gs
    | (y :: g) :: gs => if p y then [x] :: (y :: g) :: gs else (x :: y :: g) :: gs

/-- Decimal digits of a Nat, most significant first, fuel-indexed so that the
definition is structural and computable; embeds the Python str(i) used at
line 404. -/
def pyNatDigitsAux : Nat → Nat → List Char
  | 0, _ => []
  | f + 1, n =>
    if n < 10 then [Nat.digitChar n]
    else pyNatDigitsAux f (n / 10) ++ [Nat.digitChar (n % 10)]

/-- Python str(n) for a natural number. -/
def pyNatStr (n : Nat) : String := String.mk (pyNatDigitsAux (n + 1) n)

/-- default_notebook_names, execute.py lines 400 to 404: the k-th name
yielded by the generator. -/
def default_notebook_names (basename : String) : Nat → String
  | 0 => basename
  | k + 1 => basename ++ "_" ++ pyNatStr (k + 1)

/-- One execution unit of the pipeline loop of lines 228 to 264: the kernel
it starts, the file name its artifacts use, and the source text of its code
cells in document order. -/
structure ExecUnit where
  kernel_name : String
  file_name : String
  cells : List String
deriving DecidableEq

/-- node.astext() for each cell node of a group (line 239). -/
def cellTexts (l : List DocNode) : List String :=
  l.filterMap (fun n => match n with | .cell s => some s | _ => none)

/-- The unit-building loop body of ExecuteJupyterCells.apply, lines 228 to
241.  The Nat argument counts how many names were consumed from
default_notebook_names so far; the generator is advanced only when a group
needs a default name (the Python or-expressions of lines 230, 231, 234,
235, with the empty string falsy). -/
def unitsOfGroups (default_kernel docname : String) :
    List (List DocNode) → Nat → List ExecUnit
  | [], _ => []
  | g :: gs, k =>
    match g with
    | DocNode.kernel kn kid :: rest =>
      { kernel_name := if kn = "" then default_kernel else kn
        file_name := if kid = "" then default_notebook_names docname k else kid
        cells := cellTexts rest } ::
        unitsOfGroups default_kernel docname gs (if kid = "" then k + 1 else k)
    | _ =>
      { kernel_name := default_kernel
        file_name := default_notebook_names docname k
        cells := cellTexts g } ::
        unitsOfGroups default_kernel docname gs (k + 1)

/-- The grouping part of ExecuteJupyterCells.apply, lines 214 to 241: early
return when the doctree holds no cell node, otherwise split the traversed
jupyter nodes on kernel markers and build one unit per group. -/
def groupUnits (default_kernel docname : String) (doc : List DocNode) :
    List ExecUnit :=
  if hasCellNode doc then
    unitsOfGroups default_kernel docname
      (split_on isJupyterKernelNode (traverseJupyter doc)) 0
  else []

/-- Python sep.join(l). -/
def pyJoin (sep : String) : List String → String
  | [] => ""
  | x :: xs => xs.foldl (fun acc s => acc ++ sep ++ s) x

/-- Contents of the plain script artifact, execute.py line 508. -/
def script_contents (cells : List String) : String := pyJoin "\n\n" cells

/-- Python str.startswith, computed on the character lists. -/
def pyStartsWith (s pre : String) : Bool := List.isPrefixOf pre.data s.data

/-- Python str.endswith, computed on the character lists. -/
def pyEndsWith (s suf : String) : Bool := List.isSuffixOf suf.data s.data

/-- os.path.join for the two-argument uses in the source. -/
def pathJoin (a b : String) : String :=
  if pyStartsWith b "/" then b
  else if a = "" then b
  else if pyEndsWith a "/" then a ++ b
  else a ++ "/" ++ b

/-- Worker for basename: keep the characters seen since the last slash. -/
def basenameChars : List Char → List Char → List Char
  | cur, [] => cur.reverse
  | cur, c :: cs => if c = '/' then basenameChars [] cs else basenameChars (c :: cur) cs

/-- os.path.basename: the part after the last slash. -/
def basename (s : String) : String := String.mk (basenameChars [] s.data)

/-- The script files written by write_notebook_output, lines 506 to 510:
for each unit the pair (path, contents) of its plain-source artifact. -/
def written_scripts (output_dir ext : String) (units : List ExecUnit) :
    List (String × String) :=
  units.map (fun u => (pathJoin output_dir (u.file_name ++ ext), script_contents u.cells))

/-- One kernel is started per unit by execute_cells (lines 237, 407 to 417):
the document-ordered list of kernels started. -/
def sessions_started (units : List ExecUnit) : List String :=
  units.map (fun u => u.kernel_name)

/-- A cell output payload, nbformat shape as consumed by
cell_output_to_nodes: a stream (name, text), an error (traceback lines), or
display data (the data dict as mime/value pairs together with the
output.metadata.filenames dict written by the extract step). -/
inductive Output where
  | stream (name text : String)
  | error (traceback : List String)
  | display (data : List (String × String)) (filenames : List (String × String))
deriving DecidableEq

/-- Doctree nodes produced by cell_output_to_nodes. -/
inductive RenderNode where
  | literal_block (text : String) (language : Option String)
  | image (uri : String)
  | raw (text : String) (format : String)
  | displaymath (latex : String)
  | widget_view (data : String)
deriving DecidableEq

/-- Final byte of an ANSI control sequence: the character class of the
regular expression used by nbconvert strip_ansi. -/
def isAnsiFinal (c : Char) : Bool := '@' ≤ c && c ≤ '~'

/-- Scan for the final byte of an ANSI sequence; the dot of the regular
expression does not cross a newline, so a newline aborts the match. -/
def ansiScan : List Char → Option (List Char)
  | [] => none
  | c :: cs =>
    if isAnsiFinal c then some cs
    else if c = '\n' then none
    else ansiScan cs

/-- Fuel-indexed worker for strip_ansi; fuel at least the list length makes
it total on the input. -/
def stripAnsiGo : Nat → List Char → List Char
  | 0, l => l
  | _, [] => []
  | f + 1, c :: cs =>
    if c = '\x1b' then
      match cs with
      | '[' :: cs2 =>
        match ansiScan cs2 with
        | some rest => stripAnsiGo f rest
        | none => c :: stripAnsiGo f cs
      | _ => c :: stripAnsiGo f cs
    else c :: stripAnsiGo f cs

/-- nbconvert.filters.strip_ansi as called at line 341: delete every
substring matching ESC [ , a minimal run of non-newline characters, and a
final byte between code points 64 and 126. -/
def strip_ansi (s : String) : String := String.mk (stripAnsiGo s.data.length s.data)

/-- The per-mime dispatch of cell_output_to_nodes once a mime type was
selected, lines 358 to 385.  An image mime type reads the extracted file
name from output.metadata.filenames; a missing entry raises (KeyError). -/
def renderDatum (dir : String) (filenames : List (String × String)) (m d : String) :
    Except String (List RenderNode) :=
  if pyStartsWith m "image" then
    match filenames.lookup m with
    | none => Except.error "KeyError: filenames"
    | some fn => Except.ok [RenderNode.image (pathJoin dir (basename fn))]
  else if m = "text/html" then Except.ok [RenderNode.raw d "html"]
  else if m = "text/latex" then Except.ok [RenderNode.displaymath d]
  else if m = "text/plain" then Except.ok [RenderNode.literal_block d none]
  else if m = WIDGET_VIEW_MIMETYPE then Except.ok [RenderNode.widget_view d]
  else Except.ok []

/-- The per-output branch of cell_output_to_nodes, lines 327 to 385: stdout
streams become literal blocks, errors become ANSI-stripped traceback
blocks, display data selects the first mime type of the priority list that
is present in the data dict (none present: no node, no error). -/
def renderOutput (dir : String) (data_priority : List String) :
    Output → Except String (List RenderNode)
  | .stream nm text =>
    Except.ok (if nm = "stdout" then [RenderNode.literal_block text none] else [])
  | .error tb =>
    Except.ok [RenderNode.literal_block (strip_ansi (pyJoin "\n" tb)) (some "ipythontb")]
  | .display data filenames =>
    match data_priority.find? (fun m => (List.lookup m data).isSome) with
    | none => Except.ok []
    | some m =>
      match List.lookup m data with
      | none => Except.ok []
      | some d => renderDatum dir filenames m d

/-- cell_output_to_nodes, execute.py lines 314 to 387, over the output list
of one cell; a raised exception in any branch aborts the whole call. -/
def cell_output_to_nodes (outputs : List Output) (data_priority : List String)
    (dir : String) : Except String (List RenderNode) :=
  match outputs with
  | [] => Except.ok []
  | o :: os =>
    match renderOutput dir data_priority o with
    | Except.error e => Except.error e
    | Except.ok ns =>
      match cell_output_to_nodes os data_priority dir with
      | Except.error e => Except.error e
      | Except.ok ms => Except.ok (ns ++ ms)

/-- The widget-state blob stored under WIDGET_STATE_MIMETYPE in the
notebook metadata: a dict holding a state dict. -/
structure WidgetsBlob where
  state : List (String × String)
deriving DecidableEq

/-- contains_widgets, execute.py lines 429 to 431: get_widgets returned
something truthy and its state entry is truthy. -/
def contains_widgets : Option WidgetsBlob → Bool
  | none => false
  | some b => !b.state.isEmpty

/-- Lines 263 to 264, executed inside the per-unit loop: for each notebook
whose contains_widgets holds, one JupyterWidgetStateNode carrying its
get_widgets value is appended to the document.  The argument is the
document-ordered list of per-unit get_widgets results. -/
def widget_state_nodes (per_unit : List (Option WidgetsBlob)) :
    List (Option WidgetsBlob) :=
  per_unit.filter contains_widgets

/-- jupyter_download_role, lines 269 to 279: the download file name is the
role text plus an extension fixed by the role flavour alone. -/
def jupyter_download_file (filetype text : String) : String :=
  text ++ (if filetype = "notebook" then ".ipynb" else ".py")

/-- The reftarget computed by jupyter_download_role, line 277. -/
def jupyter_download_target (output_dir filetype text : String) : String :=
  pathJoin output_dir (jupyter_download_file filetype text)

/-- The name of the script artifact written at lines 507 to 509:
notebook_name plus the file_extension reported by the language_info of the
kernel that ran the unit. -/
def script_file_name (notebook_name ext : String) : String :=
  notebook_name ++ ext

/-- The jupyter_execute_kwargs shape used by setup, lines 567 to 571. -/
structure ExecuteKwargs where
  timeout : Int
  allow_errors : Bool
deriving DecidableEq

/-- Default jupyter_execute_kwargs registered by setup at lines 567 to 571. -/
def jupyter_execute_kwargs_default : ExecuteKwargs :=
  { timeout := -1, allow_errors := true }

/-- Default kernel registered by setup at lines 572 to 576. -/
def jupyter_execute_default_kernel : String := "python3"

/-- Default mime priority list registered by setup at lines 577 to 589. -/
def jupyter_execute_data_priority_default : List String :=
  [WIDGET_VIEW_MIMETYPE, "text/html", "image/svg+xml", "image/png",
   "image/jpeg", "text/latex", "text/plain"]

/-- Behaviour of one code block when submitted to the session: it either
completes with its outputs or raises an in-code exception reported as an
error payload. -/
inductive BlockOutcome where
  | ok (outputs : List Output)
  | raises (err : Output)
deriving DecidableEq

/-- Modelled from the spec: the per-block driving of the external execution
session (the ExecutePreprocessor run by executenb lives outside this
repository).  Under allow_errors an in-code exception is captured as an
error payload in the Result of that block and execution continues with the
next block; without allow_errors the remaining blocks are aborted. -/
def driveBlocks (allow_errors : Bool) : List BlockOutcome → List (List Output)
  | [] => []
  | BlockOutcome.ok outs :: rest => outs :: driveBlocks allow_errors rest
  | BlockOutcome.raises err :: rest =>
    [err] :: (if allow_errors then driveBlocks allow_errors rest else [])

/-- Modelled from the spec wording, for the refinement check of C6: the
block sources concatenated in order with exactly one blank line between
consecutive blocks. -/
def specConcatBlankLine : List String → String
  | [] => ""
  | [x] => x
  | x :: xs => x ++ "\n\n" ++ specConcatBlankLine xs

/-- Digit-string evaluator used to invert pyNatStr. -/
def evalDigits (l : List Char) : Nat :=
  l.foldl (fun a c => 10 * a + (c.toNat - 48)) 0

/-! ### Helper lemmas -/

theorem digitChar_toNat : ∀ n : Nat, n < 10 → (Nat.digitChar n).toNat = 48 + n := by
  decide

theorem pyNatDigitsAux_ne_nil (f n : Nat) : pyNatDigitsAux (f + 1) n ≠ [] := by
  unfold pyNatDigitsAux
  split
  · simp
  · simp

theorem evalDigits_append (l : List Char) (c : Char) :
    evalDigits (l ++ [c]) = 10 * evalDigits l + (c.toNat - 48) := by
  simp [evalDigits, List.foldl_append]

theorem evalDigits_pyNatDigitsAux :
    ∀ f n : Nat, n < f → evalDigits (pyNatDigitsAux f n) = n := by
  intro f
  induction f with
  | zero => intro n h; omega
  | succ f ih =>
    intro n h
    unfold pyNatDigitsAux
    by_cases h10 : n < 10
    · rw [if_pos h10]
      simp only [evalDigits, List.foldl_cons, List.foldl_nil]
      rw [digitChar_toNat n h10]
      omega
    · rw [if_neg h10]
      rw [evalDigits_append, ih (n / 10) (by omega)]
      rw [digitChar_toNat (n % 10) (by omega)]
      omega

theorem pyNatStr_inj {a b : Nat} (h : pyNatStr a = pyNatStr b) : a = b := by
  have hd : pyNatDigitsAux (a + 1) a = pyNatDigitsAux (b + 1) b := congrArg String.data h
  have h2 := evalDigits_pyNatDigitsAux (a + 1) a (by omega)
  have h3 := evalDigits_pyNatDigitsAux (b + 1) b (by omega)
  calc a = evalDigits (pyNatDigitsAux (a + 1) a) := h2.symm
    _ = evalDigits (pyNatDigitsAux (b + 1) b) := by rw [hd]
    _ = b := h3

theorem pyNatStr_length_pos (n : Nat) : 0 < (pyNatStr n).length := by
  simp only [pyNatStr, String.length_mk]
  exact List.length_pos.mpr (pyNatDigitsAux_ne_nil n n)

theorem string_append_cancel {s t u : String} (h : s ++ t = s ++ u) : t = u := by
  apply String.ext
  have hd := congrArg String.data h
  rw [String.data_append, String.data_append] at hd
  exact List.append_cancel_left hd

theorem default_notebook_names_inj (base : String) {m n : Nat}
    (h : default_notebook_names base m = default_notebook_names base n) : m = n := by
  cases m with
  | zero =>
    cases n with
    | zero => rfl
    | succ k =>
      exfalso
      have hl := congrArg String.length h
      rw [show default_notebook_names base 0 = base from rfl,
          show default_notebook_names base (k + 1) = base ++ "_" ++ pyNatStr (k + 1) from rfl,
          String.length_append, String.length_append] at hl
      have hp := pyNatStr_length_pos (k + 1)
      have hu : ("_" : String).length = 1 := rfl
      omega
  | succ i =>
    cases n with
    | zero =>
      exfalso
      have hl := congrArg String.length h
      rw [show default_notebook_names base 0 = base from rfl,
          show default_notebook_names base (i + 1) = base ++ "_" ++ pyNatStr (i + 1) from rfl,
          String.length_append, String.length_append] at hl
      have hp := pyNatStr_length_pos (i + 1)
      have hu : ("_" : String).length = 1 := rfl
      omega
    | succ j =>
      have h2 : pyNatStr (i + 1) = pyNatStr (j + 1) := by
        have h3 : base ++ "_" ++ pyNatStr (i + 1) = base ++ "_" ++ pyNatStr (j + 1) := h
        exact string_append_cancel h3
      have := pyNatStr_inj h2
      omega

theorem split_on_no_pred {α : Type} (p : α → Bool) :
    ∀ l : List α, l ≠ [] → (∀ x ∈ l, p x = false) → split_on p l = [l] := by
  intro l
  induction l with
  | nil => intro h; exact absurd rfl h
  | cons x xs ih =>
    intro _ hall
    cases xs with
    | nil => rfl
    | cons y ys =>
      have hxs : split_on p (y :: ys) = [y :: ys] :=
        ih (by simp) (fun a ha => hall a (List.mem_cons_of_mem _ ha))
      have hy : p y = false := hall y (by simp)
      have hstep : split_on p (x :: y :: ys) =
          match split_on p (y :: ys) with
          | [] => [[x]]
          | [] :: gs => [x] :: gs
          | (z :: g) :: gs =>
            if p z then [x] :: (z :: g) :: gs else (x :: z :: g) :: gs := rfl
      rw [hstep, hxs]
      simp [hy]

theorem cellTexts_traverseJupyter (doc : List DocNode) :
    cellTexts (traverseJupyter doc) = cellTexts doc := by
  induction doc with
  | nil => rfl
  | cons n rest ih =>
    cases n with
    | kernel kn kid =>
      simpa [traverseJupyter, cellTexts, List.filter_cons, List.filterMap_cons,
        isJupyterNode, isJupyterKernelNode, isJupyterCellNode] using ih
    | cell s =>
      simpa [traverseJupyter, cellTexts, List.filter_cons, List.filterMap_cons,
        isJupyterNode, isJupyterKernelNode, isJupyterCellNode] using ih
    | other =>
      simpa [traverseJupyter, cellTexts, List.filter_cons, List.filterMap_cons,
        isJupyterNode, isJupyterKernelNode, isJupyterCellNode] using ih

theorem pyJoin_foldl_aux : ∀ (xs : List String) (a : String),
    List.foldl (fun acc s => acc ++ "\n\n" ++ s) a xs = specConcatBlankLine (a :: xs) := by
  intro xs
  induction xs with
  | nil => intro a; rfl
  | cons y ys ih =>
    intro a
    rw [List.foldl_cons, ih (a ++ "\n\n" ++ y)]
    cases ys with
    | nil => rfl
    | cons z zs =>
      show specConcatBlankLine ((a ++ "\n\n" ++ y) :: z :: zs)
        = specConcatBlankLine (a :: y :: z :: zs)
      simp [specConcatBlankLine, String.append_assoc]

theorem script_contents_eq_spec (cells : List String) :
    script_contents cells = specConcatBlankLine cells := by
  cases cells with
  | nil => rfl
  | cons x xs => exact pyJoin_foldl_aux xs x

theorem driveBlocks_true_length (bs : List BlockOutcome) :
    (driveBlocks true bs).length = bs.length := by
  induction bs with
  | nil => rfl
  | cons b rest ih => cases b <;> simp [driveBlocks, ih]

theorem cell_output_to_nodes_singleton (o : Output) (p : List String) (dir : String) :
    cell_output_to_nodes [o] p dir = renderOutput dir p o := by
  cases h : renderOutput dir p o with
  | error e => simp [cell_output_to_nodes, h]
  | ok ns => simp [cell_output_to_nodes, h]

theorem pathJoin_ends (a b suf : String) (h : ∃ p, b = p ++ suf) :
    ∃ p, pathJoin a b = p ++ suf := by
  obtain ⟨p, rfl⟩ := h
  unfold pathJoin
  split
  · exact ⟨p, rfl⟩
  · split
    · exact ⟨p, rfl⟩
    · split
      · exact ⟨a ++ p, (String.append_assoc a p suf).symm⟩
      · exact ⟨a ++ "/" ++ p, (String.append_assoc (a ++ "/") p suf).symm⟩

/-! ### Claim theorems -/

/-- C1 counterexample: in the document [code cell "x", kernel marker with
explicit id "demo"], the marker is followed by zero code blocks before the
end of the document, yet the pipeline still produces an ExecutionUnit for
it, starts a kernel session for that unit, and writes an (empty) script
artifact named demo.py. -/
theorem c1_empty_marker_counterexample :
    groupUnits "python3" "doc" [DocNode.cell "x", DocNode.kernel "" "demo"] =
      [{ kernel_name := "python3", file_name := "doc", cells := ["x"] },
       { kernel_name := "python3", file_name := "demo", cells := [] }]
    ∧ sessions_started
        (groupUnits "python3" "doc" [DocNode.cell "x", DocNode.kernel "" "demo"]) =
        ["python3", "python3"]
    ∧ written_scripts "/out" ".py"
        (groupUnits "python3" "doc" [DocNode.cell "x", DocNode.kernel "" "demo"]) =
        [("/out/doc.py", "x"), ("/out/demo.py", "")] := by
  refine ⟨rfl, rfl, rfl⟩

/-- C1 (amended): a marker-led group with zero code blocks is not skipped:
it yields an ExecutionUnit with an empty block list which is executed and
whose (empty) script artifact is written; only a document whose traversal
contains no code cell anywhere makes the transform exit before grouping,
producing no units. -/
theorem c1_empty_marker_amended :
    ∀ (dk dn kn kid : String) (gs : List (List DocNode)) (k : Nat),
    unitsOfGroups dk dn ([DocNode.kernel kn kid] :: gs) k =
      { kernel_name := if kn = "" then dk else kn
        file_name := if kid = "" then default_notebook_names dn k else kid
        cells := [] } ::
        unitsOfGroups dk dn gs (if kid = "" then k + 1 else k)
    ∧ (∀ dir ext fname kname,
        written_scripts dir ext
          [{ kernel_name := kname, file_name := fname, cells := [] }] =
          [(pathJoin dir (fname ++ ext), "")])
    ∧ groupUnits dk dn [DocNode.kernel kn kid] = [] := by
  intro dk dn kn kid gs k
  refine ⟨rfl, ?_, ?_⟩
  · intro dir ext fname kname; rfl
  · simp [groupUnits, hasCellNode, isJupyterCellNode]

/-- C2 counterexample: with two execution units whose notebooks both carry
nonempty widget state, the transform appends two widget-state nodes to the
document, not one aggregate node. -/
theorem c2_widget_state_counterexample :
    (widget_state_nodes
      [some { state := [("a", "1")] }, some { state := [("b", "2")] }]).length = 2
    ∧ (widget_state_nodes
      [some { state := [("a", "1")] }, some { state := [("b", "2")] }]).length ≠ 1 := by
  refine ⟨rfl, by decide⟩

/-- C2 (amended): one widget-state node is appended at document scope per
unit whose notebook contains nonempty widget state (so k widget-producing
units give k nodes); when no unit produced widget state, no node is
appended; every appended node comes from a unit that passed the
contains_widgets test. -/
theorem c2_widget_state_amended : ∀ ws : List (Option WidgetsBlob),
    (widget_state_nodes ws).length = ws.countP contains_widgets
    ∧ ((∀ w ∈ ws, contains_widgets w = false) → widget_state_nodes ws = [])
    ∧ (∀ w ∈ widget_state_nodes ws, contains_widgets w = true) := by
  intro ws
  refine ⟨(List.countP_eq_length_filter _ _).symm, ?_, ?_⟩
  · intro h
    exact List.filter_eq_nil_iff.mpr (fun a ha => by simp [h a ha])
  · intro w hw
    exact (List.mem_filter.mp hw).2

theorem c2_widget_state_amended_witness :
    widget_state_nodes [(none : Option WidgetsBlob)] = [] :=
  (c2_widget_state_amended [none]).2.1 (by decide)

/-- C4 counterexample: a stream payload on the stderr stream produces no
fragment at all, although its text is nonempty. -/
theorem c4_stream_counterexample :
    cell_output_to_nodes [Output.stream "stderr" "boom"]
      jupyter_execute_data_priority_default "/d" = Except.ok [] := by
  rfl

/-- C4 (amended): a stream payload on the stdout stream yields exactly one
preformatted text fragment carrying the payload text verbatim; a stream
payload on any other stream name yields no fragment. -/
theorem c4_stream_amended : ∀ (text : String) (priority : List String) (dir : String),
    cell_output_to_nodes [Output.stream "stdout" text] priority dir
      = Except.ok [RenderNode.literal_block text none]
    ∧ (∀ nm, nm ≠ "stdout" →
        cell_output_to_nodes [Output.stream nm text] priority dir = Except.ok []) := by
  intro text priority dir
  constructor
  · rw [cell_output_to_nodes_singleton]; rfl
  · intro nm h
    rw [cell_output_to_nodes_singleton]
    simp [renderOutput, h]

theorem c4_stream_amended_witness :
    cell_output_to_nodes [Output.stream "stderr" "x"] [] "/d" = Except.ok [] :=
  (c4_stream_amended "x" [] "/d").2 "stderr" (by decide)

/-- C5: an error payload renders as exactly one preformatted fragment in the
traceback presentation style whose text is the newline-joined traceback
with ANSI control sequences stripped; the default configuration registers
allow_errors, and under allow_errors a block that raises still lets every
remaining block of the unit execute (one Result per block). -/
theorem c5_error_block : ∀ (tb : List String) (priority : List String) (dir : String)
    (err : Output) (bs : List BlockOutcome),
    cell_output_to_nodes [Output.error tb] priority dir
      = Except.ok [RenderNode.literal_block
          (strip_ansi (pyJoin "\n" tb)) (some "ipythontb")]
    ∧ jupyter_execute_kwargs_default.allow_errors = true
    ∧ driveBlocks jupyter_execute_kwargs_default.allow_errors
        (BlockOutcome.raises err :: bs)
        = [err] :: driveBlocks jupyter_execute_kwargs_default.allow_errors bs
    ∧ (driveBlocks jupyter_execute_kwargs_default.allow_errors bs).length = bs.length
    ∧ strip_ansi "\x1b[0;31mZeroDivisionError\x1b[0m" = "ZeroDivisionError" := by
  intro tb priority dir err bs
  refine ⟨?_, rfl, ?_, driveBlocks_true_length bs, ?_⟩
  · rw [cell_output_to_nodes_singleton]; rfl
  · simp [driveBlocks, jupyter_execute_kwargs_default]
  · rfl

/-- C6: the plain-source artifact content written for a unit is exactly the
block sources concatenated in order with one blank line between consecutive
blocks; in particular blocks ["x = 1", "x + 1"] give "x = 1\n\nx + 1". -/
theorem c6_script_artifact : ∀ cells : List String,
    script_contents cells = specConcatBlankLine cells
    ∧ script_contents ["x = 1", "x + 1"] = "x = 1\n\nx + 1"
    ∧ written_scripts "/out" ".py"
        [{ kernel_name := "python3", file_name := "doc", cells := ["x = 1", "x + 1"] }]
        = [("/out/doc.py", "x = 1\n\nx + 1")] := by
  intro cells
  exact ⟨script_contents_eq_spec cells, rfl, rfl⟩

/-- C7: for a document base name, the generated unit-name sequence is the
base name for the first occurrence and base_k for the k-th subsequent one;
distinct occurrences never receive the same name, and the sequence is a
function of the base name alone, hence identical on repeated runs. -/
theorem c7_default_names : ∀ (base : String) (m n : Nat),
    default_notebook_names base 0 = base
    ∧ default_notebook_names base (n + 1) = base ++ "_" ++ pyNatStr (n + 1)
    ∧ (m ≠ n → default_notebook_names base m ≠ default_notebook_names base n)
    ∧ (∀ base2, base = base2 →
        default_notebook_names base m = default_notebook_names base2 m) := by
  intro base m n
  refine ⟨rfl, rfl, ?_, ?_⟩
  · intro hmn heq; exact hmn (default_notebook_names_inj base heq)
  · intro b2 h; rw [h]

theorem c7_default_names_witness :
    default_notebook_names "doc" 1 ≠ default_notebook_names "doc" 2 :=
  (c7_default_names "doc" 1 2).2.2.1 (by decide)

/-- C9: rendering is deterministic: equal output lists, equal priority
lists and equal output directories give identical fragment sequences. -/
theorem c9_render_deterministic :
    ∀ (outs1 outs2 : List Output) (p1 p2 : List String) (d1 d2 : String),
    outs1 = outs2 → p1 = p2 → d1 = d2 →
    cell_output_to_nodes outs1 p1 d1 = cell_output_to_nodes outs2 p2 d2 := by
  intro _ _ _ _ _ _ h1 h2 h3
  rw [h1, h2, h3]

theorem c9_render_deterministic_witness :
    cell_output_to_nodes [Output.stream "stdout" "hi"] ["text/plain"] "/d"
      = cell_output_to_nodes [Output.stream "stdout" "hi"] ["text/plain"] "/d" :=
  c9_render_deterministic _ _ _ _ _ _ rfl rfl rfl

/-- C10: the download-source role target always ends in .py whatever kernel
ran the unit, while the script artifact is named with the kernel native
extension; the two names agree exactly when that extension is .py. -/
theorem c10_download_vs_script : ∀ (output_dir text ext nbname : String),
    (∃ pre : String, jupyter_download_target output_dir "script" text = pre ++ ".py")
    ∧ (jupyter_download_file "script" nbname = script_file_name nbname ext ↔
        ext = ".py") := by
  intro output_dir text ext nbname
  constructor
  · exact pathJoin_ends output_dir _ ".py" ⟨text, rfl⟩
  · constructor
    · intro h
      have h2 : nbname ++ ".py" = nbname ++ ext := h
      exact (string_append_cancel h2).symm
    · intro h; subst h; rfl

theorem c10_download_vs_script_witness :
    jupyter_download_file "script" "doc" = script_file_name "doc" ".py" :=
  (c10_download_vs_script "/o" "doc" ".py" "doc").2.mpr rfl

/-- C3 counterexample: with priority list [application/json] and a payload
whose data map contains application/json, that mime-type is selected as the
first priority-list entry present in the payload, yet the renderer emits
zero fragments for it (the selected type matches no dispatch branch), so
selection does not imply exactly one fragment. -/
theorem c3_priority_counterexample :
    (["application/json"].find?
        (fun m => (List.lookup m [("application/json", "J")]).isSome)
      = some "application/json")
    ∧ cell_output_to_nodes [Output.display [("application/json", "J")] []]
        ["application/json"] "/dir" = Except.ok [] := by
  exact ⟨rfl, rfl⟩

/-- C3 (amended): the renderer selects the first mime-type of the priority
list present in the payload data map; if none is present the payload yields
no fragment and no error; when the selected mime-type is one the dispatch
recognises (text/html, text/latex, text/plain, the widget-view type, or an
image type with a recorded file name) exactly one fragment of the matching
kind is emitted; in particular priority [html, png, text] with a payload
containing png and text selects png and drops text. -/
theorem c3_priority_amended :
    ∀ (data filenames : List (String × String)) (priority : List String) (dir : String),
    (priority.find? (fun m => (List.lookup m data).isSome) = none →
      cell_output_to_nodes [Output.display data filenames] priority dir = Except.ok [])
    ∧ (∀ m d, priority.find? (fun m => (List.lookup m data).isSome) = some m →
        List.lookup m data = some d →
        (m = "text/html" →
          cell_output_to_nodes [Output.display data filenames] priority dir
            = Except.ok [RenderNode.raw d "html"])
        ∧ (m = "text/latex" →
          cell_output_to_nodes [Output.display data filenames] priority dir
            = Except.ok [RenderNode.displaymath d])
        ∧ (m = "text/plain" →
          cell_output_to_nodes [Output.display data filenames] priority dir
            = Except.ok [RenderNode.literal_block d none])
        ∧ (m = WIDGET_VIEW_MIMETYPE →
          cell_output_to_nodes [Output.display data filenames] priority dir
            = Except.ok [RenderNode.widget_view d])
        ∧ (∀ fn, pyStartsWith m "image" = true → List.lookup m filenames = some fn →
          cell_output_to_nodes [Output.display data filenames] priority dir
            = Except.ok [RenderNode.image (pathJoin dir (basename fn))]))
    ∧ cell_output_to_nodes
        [Output.display [("image/png", "P"), ("text/plain", "T")] [("image/png", "f.png")]]
        ["text/html", "image/png", "text/plain"] "/d"
        = Except.ok [RenderNode.image "/d/f.png"] := by
  intro data filenames priority dir
  refine ⟨?_, ?_, rfl⟩
  · intro h
    rw [cell_output_to_nodes_singleton]
    simp [renderOutput, h]
  · intro m d hfind hdata
    have hro : renderOutput dir priority (Output.display data filenames)
        = renderDatum dir filenames m d := by
      simp [renderOutput, hfind, hdata]
    refine ⟨?_, ?_, ?_, ?_, ?_⟩
    · intro hm; subst hm; rw [cell_output_to_nodes_singleton, hro]; rfl
    · intro hm; subst hm; rw [cell_output_to_nodes_singleton, hro]; rfl
    · intro hm; subst hm; rw [cell_output_to_nodes_singleton, hro]; rfl
    · intro hm; subst hm; rw [cell_output_to_nodes_singleton, hro]; rfl
    · intro fn himg hfn
      rw [cell_output_to_nodes_singleton, hro]
      simp [renderDatum, himg, hfn]

theorem c3_priority_amended_witness :
    cell_output_to_nodes [Output.display [("text/plain", "T")] []] ["text/plain"] "/d"
      = Except.ok [RenderNode.literal_block "T" none] :=
  ((c3_priority_amended [("text/plain", "T")] [] ["text/plain"] "/d").2.1
    "text/plain" "T" rfl rfl).2.2.1 rfl

/-- C8 counterexample: the empty document contains zero selector markers,
yet the grouping step yields zero ExecutionUnits, not exactly one. -/
theorem c8_no_marker_counterexample :
    groupUnits "python3" "doc" [] = []
    ∧ (groupUnits "python3" "doc" []).length ≠ 1 := by
  exact ⟨rfl, by decide⟩

/-- C8 (amended): every document that contains zero selector markers and at
least one code cell groups into exactly one ExecutionUnit holding every
code block of the document in original order, running the default kernel
under the document base name. -/
theorem c8_no_marker_amended : ∀ (dk dn : String) (doc : List DocNode),
    (∀ n ∈ doc, isJupyterKernelNode n = false) →
    hasCellNode doc = true →
    groupUnits dk dn doc =
      [{ kernel_name := dk, file_name := dn, cells := cellTexts doc }] := by
  intro dk dn doc hker hcell
  unfold groupUnits
  rw [if_pos hcell]
  have htrav_ne : traverseJupyter doc ≠ [] := by
    obtain ⟨c, hc, hcprop⟩ := List.any_eq_true.mp hcell
    intro hnil
    have hmem : c ∈ traverseJupyter doc :=
      List.mem_filter.mpr ⟨hc, by simp [isJupyterNode, hcprop]⟩
    rw [hnil] at hmem
    exact List.not_mem_nil c hmem
  have hker2 : ∀ x ∈ traverseJupyter doc, isJupyterKernelNode x = false :=
    fun x hx => hker x (List.mem_filter.mp hx).1
  rw [split_on_no_pred _ _ htrav_ne hker2]
  obtain ⟨y, ys, hg⟩ : ∃ y ys, traverseJupyter doc = y :: ys := by
    cases h : traverseJupyter doc with
    | nil => exact absurd h htrav_ne
    | cons y ys => exact ⟨y, ys, rfl⟩
  rw [hg]
  cases y with
  | kernel kn kid =>
    exfalso
    have hk : isJupyterKernelNode (DocNode.kernel kn kid) = false :=
      hker2 _ (hg ▸ List.mem_cons_self _ _)
    simp [isJupyterKernelNode] at hk
  | cell s =>
    have heq : unitsOfGroups dk dn [DocNode.cell s :: ys] 0 =
        [{ kernel_name := dk, file_name := dn,
           cells := cellTexts (DocNode.cell s :: ys) }] := rfl
    rw [heq, show DocNode.cell s :: ys = traverseJupyter doc from hg.symm,
      cellTexts_traverseJupyter]
  | other =>
    have heq : unitsOfGroups dk dn [DocNode.other :: ys] 0 =
        [{ kernel_name := dk, file_name := dn,
           cells := cellTexts (DocNode.other :: ys) }] := rfl
    rw [heq, show DocNode.other :: ys = traverseJupyter doc from hg.symm,
      cellTexts_traverseJupyter]

theorem c8_no_marker_amended_witness :
    groupUnits "python3" "doc" [DocNode.other, DocNode.cell "a", DocNode.cell "b"] =
      [{ kernel_name := "python3", file_name := "doc", cells := ["a", "b"] }] :=
  c8_no_marker_amended "python3" "doc"
    [DocNode.other, DocNode.cell "a", DocNode.cell "b"] (by decide) (by decide)
